import Mathlib

/-!
Verification of the RAG chat orchestration pipeline (AI-Knowledge-Explorer).

The development shallowly embeds the decision logic of the repository:

* `chunk_text` (utils/rag_utils.py) — the overlapping-window chunker, with text
  modelled as `List Char` and the `while` loop as fuel-indexed structural
  recursion (the fuel `length + 1` is never exhausted when the stride
  `chunk_size - overlap` is positive, which is the only regime the spec defines).
* `retrieve` (utils/rag_utils.py) — the collection lookup; a missing collection
  is `none` and yields the empty match list, mirroring the swallowed exception.
* `build_context_for_query`, `get_chat_response` and the per-turn orchestration
  of `chat_page` (app.py) — external effects (the vector index query, the chat
  model invocation, the web request) are passed in as values of `Except`/
  function type, so that raising code paths are explicit error values.
* `serpapi_search` (utils/web_search.py) — the snippet extraction chain with
  Python falsy-`or` semantics made explicit by `pyOr`.

Distances are modelled as `ℚ` (the source compares floats against the literal
1.5, exactly representable; all concrete distances used here are exact).
-/

namespace RagApp

/-- A retrieved match as produced by `retrieve`: the `distance` key may be
absent from the underlying dict, hence `Option`. -/
structure RetrievedDoc where
  text : String
  distance : Option ℚ
deriving Repr, DecidableEq

/-- `d.get("distance", default)` on the match dict. -/
def distOrDefault (d : RetrievedDoc) (default : ℚ) : ℚ :=
  d.distance.getD default

/-- The relevance filter of `build_context_for_query`:
`[d for d in docs if d.get("distance", 100) < 1.5]`. -/
def relevantDocs (docs : List RetrievedDoc) : List RetrievedDoc :=
  docs.filter (fun d => distOrDefault d 100 < 3/2)

/-- One formatted context block:
`f"Source {i+1} (score {d.get('distance',0):.4f}): {d['text']}"`.
The numeric rendering of the score is presentation detail (the source prints
four decimal places of a float; here the exact rational is printed): the
properties proved below depend only on the block structure around it. -/
def formatPiece (i : Nat) (d : RetrievedDoc) : String :=
  "Source " ++ toString (i + 1) ++ " (score " ++ toString (distOrDefault d 0) ++ "): " ++ d.text

/-- Python `sep.join(pieces)`. -/
def joinWith (sep : String) : List String → String
  | [] => ""
  | [s] => s
  | s :: rest => s ++ sep ++ joinWith sep rest

/-- `retrieve` (utils/rag_utils.py): `get_collection` raising (collection not
yet created) is caught and yields `[]`; otherwise the query returns the
collection's matches for the query. -/
def retrieve (collection : Option (List RetrievedDoc)) : List RetrievedDoc :=
  match collection with
  | none => []
  | some docs => docs

/-- `build_context_for_query` (app.py): the `retrieve` call may raise (modelled
by `Except.error`), which returns `""`; empty matches return `""`; an empty
relevance-filtered set returns `""`; otherwise the surviving matches are
formatted in order and joined with the visible separator. -/
def build_context_for_query (retrievalResult : Except String (List RetrievedDoc)) : String :=
  match retrievalResult with
  | Except.error _ => ""
  | Except.ok docs =>
    if docs.isEmpty then ""
    else if (relevantDocs docs).isEmpty then ""
    else joinWith "\n\n---\n\n" ((relevantDocs docs).enum.map (fun p => formatPiece p.1 p.2))

/-- A chat-history entry `{"role": ..., "content": ...}`. -/
structure ChatTurnEntry where
  role : String
  content : String
deriving Repr, DecidableEq

/-- A composed message: LangChain `SystemMessage` / `HumanMessage` / `AIMessage`. -/
inductive ChatMessage where
  | systemMsg (content : String)
  | humanMsg (content : String)
  | aiMsg (content : String)
deriving Repr, DecidableEq

/-- The context-bearing system message, labeled distinctly from the persona:
`SystemMessage(content=f"Relevant context from documents:\n{retrieval_context}")`. -/
def contextMessage (retrieval_context : String) : ChatMessage :=
  ChatMessage.systemMsg ("Relevant context from documents:\n" ++ retrieval_context)

/-- The concise-mode directive appended last. -/
def conciseDirective : ChatMessage :=
  ChatMessage.systemMsg "Be concise: 2-3 sentences max, direct answers only, no examples or background."

/-- The detailed-mode directive appended last. -/
def detailedDirective : ChatMessage :=
  ChatMessage.systemMsg "Be detailed: 5+ sentences with examples, step-by-step reasoning, context, and best practices."

/-- Python `str.lower()` restricted to the character-wise core mapping. -/
def pyLower (s : String) : String :=
  ⟨s.data.map Char.toLower⟩

/-- History role mapping: `"user"` becomes a human message, anything else an
assistant message (`msg.get("role") == "user"` check in `get_chat_response`). -/
def roleMessage (m : ChatTurnEntry) : ChatMessage :=
  if m.role = "user" then ChatMessage.humanMsg m.content else ChatMessage.aiMsg m.content

/-- The final verbosity system message:
`if response_mode.lower() == "concise"` selects the concise directive. -/
def verbosityDirective (response_mode : String) : ChatMessage :=
  if pyLower response_mode = "concise" then conciseDirective else detailedDirective

/-- The message sequence composed by `get_chat_response`: persona system
message, optional context system message, history, verbosity directive. -/
def composeMessages (messages : List ChatTurnEntry)
    (system_prompt retrieval_context response_mode : String) : List ChatMessage :=
  [ChatMessage.systemMsg system_prompt]
    ++ (if retrieval_context = "" then [] else [contextMessage retrieval_context])
    ++ messages.map roleMessage
    ++ [verbosityDirective response_mode]

/-- The error text produced when the model invocation raises:
`f"Error getting response: {str(e)}.\n\nTraceback:\n{tb}"`. -/
def errorResponse (emsg tb : String) : String :=
  "Error getting response: " ++ emsg ++ ".\n\nTraceback:\n" ++ tb

/-- `get_chat_response` (app.py): composes the messages and invokes the chat
model; a raising invocation (error value carrying the exception text and the
formatted traceback) is caught and rendered as the error response string. -/
def get_chat_response (invoke : List ChatMessage → Except (String × String) String)
    (messages : List ChatTurnEntry)
    (system_prompt retrieval_context response_mode : String) : String :=
  match invoke (composeMessages messages system_prompt retrieval_context response_mode) with
  | Except.ok content => content
  | Except.error e => errorResponse e.1 e.2

/-- Outcome of the per-turn context resolution in `chat_page`. -/
structure ContextResolution where
  context : String
  webInvoked : Bool
  used_fallback_search : Bool
deriving Repr, DecidableEq

/-- The context-resolution step of `chat_page`: build the local context; if it
is empty, invoke the web fallback, and adopt the joined snippets when any were
returned. `webInvoked` records whether `serpapi_search` was called at all;
`used_fallback_search` is the flag the source sets only when snippets arrived. -/
def resolveTurnContext (retrievalResult : Except String (List RetrievedDoc))
    (webSnippets : List String) : ContextResolution :=
  let retrieval_context := build_context_for_query retrievalResult
  if retrieval_context = "" then
    if webSnippets.isEmpty then
      { context := retrieval_context, webInvoked := true, used_fallback_search := false }
    else
      { context := joinWith "\n\n" webSnippets, webInvoked := true, used_fallback_search := true }
  else
    { context := retrieval_context, webInvoked := false, used_fallback_search := false }

/-- Result of one chat turn. -/
structure TurnOutcome where
  transcript : List ChatTurnEntry
  response_text : String
  used_fallback_search : Bool
deriving Repr, DecidableEq

/-- One turn of `chat_page` with an initialized model: append the user entry,
resolve the context, call `get_chat_response`, append the assistant entry. -/
def runTurn (transcript : List ChatTurnEntry) (prompt : String)
    (retrievalResult : Except String (List RetrievedDoc)) (webSnippets : List String)
    (invoke : List ChatMessage → Except (String × String) String)
    (system_prompt response_mode : String) : TurnOutcome :=
  let withUser := transcript ++ [{ role := "user", content := prompt }]
  let res := resolveTurnContext retrievalResult webSnippets
  let response_text := get_chat_response invoke withUser system_prompt res.context response_mode
  { transcript := withUser ++ [{ role := "assistant", content := response_text }]
    response_text := response_text
    used_fallback_search := res.used_fallback_search }

/-- The `while start < length` loop body of `chunk_text`, with explicit fuel;
each iteration emits `text[start : start + chunk_size]` and advances by the
stride `chunk_size - overlap`. -/
def chunkLoop (text : List Char) (chunk_size overlap : Nat) : Nat → Nat → List (List Char)
  | _, 0 => []
  | start, fuel + 1 =>
    if start < text.length then
      ((text.drop start).take chunk_size)
        :: chunkLoop text chunk_size overlap (start + (chunk_size - overlap)) fuel
    else []

/-- `chunk_text` (utils/rag_utils.py). With a positive stride the loop runs at
most `length` times, so the fuel `length + 1` is never exhausted; the
`overlap ≥ chunk_size` regime is undefined behavior per the spec. -/
def chunk_text (text : List Char) (chunk_size : Nat := 500) (overlap : Nat := 50) :
    List (List Char) :=
  chunkLoop text chunk_size overlap 0 (text.length + 1)

/-- Python `str.strip()` with no argument: remove leading and trailing
whitespace. -/
def pyStrip (text : List Char) : List Char :=
  ((text.dropWhile Char.isWhitespace).reverse.dropWhile Char.isWhitespace).reverse

/-- The ingestion guard of `main` (app.py): a file whose text strips to empty
is skipped (`if not full_text.strip(): continue`); otherwise the text is
chunked with `chunk_size=500, overlap=50`. -/
def fileChunks (full_text : List Char) : List (List Char) :=
  if pyStrip full_text = [] then [] else chunk_text full_text 500 50

/-- A raw web-search result record; each text field may be absent. -/
structure SearchResult where
  snippet : Option String
  title : Option String
  snippet_text : Option String
deriving Repr, DecidableEq

/-- Python `a or b` for an optional string `a`: `b` when `a` is missing or
falsy (empty). -/
def pyOr (a : Option String) (b : String) : String :=
  match a with
  | some s => if s = "" then b else s
  | none => b

/-- The per-result snippet extraction of `serpapi_search`:
`r.get("snippet") or r.get("title") or r.get("snippet_text") or ""`. -/
def snippetOf (r : SearchResult) : String :=
  pyOr r.snippet (pyOr r.title (pyOr r.snippet_text ""))

/-- The snippet chain exactly as the specification sentence words it — prefer
the summary (snippet) field, fall back to the title field, fall back to the
empty string — written only to compare against the implemented chain
`snippetOf`, which has one more fallback. -/
def claimSnippetOf (r : SearchResult) : String :=
  pyOr r.snippet (pyOr r.title "")

/-- `serpapi_search` (utils/web_search.py): a missing key returns `[]`; a
raising request (error value) returns `[]`; otherwise the first `num_results`
organic results each yield one snippet string. -/
def serpapi_search (serpapiKey : String)
    (requestResult : Except String (List SearchResult)) (num_results : Nat) : List String :=
  if serpapiKey = "" then []
  else
    match requestResult with
    | Except.error _ => []
    | Except.ok results => (results.take num_results).map snippetOf

/-! ## Helper lemmas -/

theorem string_eq_empty_of_length_eq_zero {s : String} (h : s.length = 0) : s = "" := by
  cases s with
  | mk data =>
    simp [String.length] at h
    simp [h]

theorem append_ne_empty_left {a : String} (b : String) (h : a.length ≠ 0) : a ++ b ≠ "" := by
  intro he
  have hlen := congrArg String.length he
  rw [String.length_append] at hlen
  have h0 : ("" : String).length = 0 := rfl
  omega

theorem formatPiece_ne_empty (i : Nat) (d : RetrievedDoc) : formatPiece i d ≠ "" := by
  unfold formatPiece
  intro he
  have hlen := congrArg String.length he
  simp only [String.length_append] at hlen
  have h7 : ("Source " : String).length = 7 := rfl
  have h0 : ("" : String).length = 0 := rfl
  omega

theorem joinWith_cons_ne_empty (sep p : String) (rest : List String) (hp : p ≠ "") :
    joinWith sep (p :: rest) ≠ "" := by
  cases rest with
  | nil => simpa [joinWith] using hp
  | cons q qs =>
    simp only [joinWith]
    intro h
    have hlen := congrArg String.length h
    simp only [String.length_append] at hlen
    have h0 : ("" : String).length = 0 := rfl
    have hpz : p.length = 0 := by omega
    exact hp (string_eq_empty_of_length_eq_zero hpz)

theorem relevantDocs_eq_nil_iff (docs : List RetrievedDoc) :
    relevantDocs docs = [] ↔ ∀ d ∈ docs, (3 : ℚ)/2 ≤ distOrDefault d 100 := by
  simp [relevantDocs, List.filter_eq_nil_iff, not_lt]

theorem build_context_ok_ne_empty (docs : List RetrievedDoc)
    (h : relevantDocs docs ≠ []) :
    build_context_for_query (Except.ok docs) ≠ "" := by
  obtain ⟨d, ds, hds⟩ := List.exists_cons_of_ne_nil h
  have hdocs : ¬ docs.isEmpty := by
    intro hi
    rw [List.isEmpty_iff.mp hi] at h
    exact h rfl
  simp only [build_context_for_query]
  rw [if_neg hdocs, if_neg (by simp [hds])]
  rw [hds, List.enum_cons, List.map_cons]
  exact joinWith_cons_ne_empty _ _ _ (formatPiece_ne_empty 0 d)

theorem build_context_empty_iff (retrievalResult : Except String (List RetrievedDoc)) :
    build_context_for_query retrievalResult = "" ↔
      (match retrievalResult with
       | Except.error _ => True
       | Except.ok docs => docs = [] ∨ ∀ d ∈ docs, (3 : ℚ)/2 ≤ distOrDefault d 100) := by
  cases retrievalResult with
  | error e => simp [build_context_for_query]
  | ok docs =>
    simp only
    by_cases hnil : docs = []
    · subst hnil
      simp [build_context_for_query]
    · by_cases hrel : relevantDocs docs = []
      · constructor
        · intro _
          exact Or.inr ((relevantDocs_eq_nil_iff docs).mp hrel)
        · intro _
          simp only [build_context_for_query]
          rw [if_neg (by simpa [List.isEmpty_iff] using hnil)]
          rw [if_pos (by simpa [List.isEmpty_iff] using hrel)]
      · constructor
        · intro hc
          exact absurd hc (build_context_ok_ne_empty docs hrel)
        · intro hdisj
          rcases hdisj with h | h
          · exact absurd h hnil
          · exact absurd ((relevantDocs_eq_nil_iff docs).mpr h) hrel

/-! ## Claims -/

/-- Claim C6: a raising retrieval call, a missing collection, or zero returned
documents each make the Context Builder return the empty string; the builder is
a total function, so no error escapes the turn. -/
theorem retrieval_failure_yields_empty_context :
    (∀ emsg : String, build_context_for_query (Except.error emsg) = "")
    ∧ build_context_for_query (Except.ok []) = ""
    ∧ retrieve none = []
    ∧ build_context_for_query (Except.ok (retrieve none)) = "" :=
  ⟨fun _ => rfl, rfl, rfl, rfl⟩

/-- Claim C10: a retrieved match without a distance field is given the default
distance 100 and is therefore never kept by the relevance filter, whatever the
surrounding match list is. -/
theorem missing_distance_treated_as_100 (docs : List RetrievedDoc) (d : RetrievedDoc)
    (hd : d.distance = none) :
    distOrDefault d 100 = 100 ∧ d ∉ relevantDocs docs := by
  constructor
  · simp [distOrDefault, hd]
  · intro hmem
    have hf := List.mem_filter.mp hmem
    simp only [distOrDefault, hd, Option.getD_none, decide_eq_true_eq] at hf
    exact absurd hf.2 (by norm_num)

/-- Witness for claim C10 at a concrete distance-free match. -/
theorem missing_distance_treated_as_100_witness :
    distOrDefault { text := "x", distance := none } 100 = 100
    ∧ ({ text := "x", distance := none } : RetrievedDoc)
        ∉ relevantDocs [{ text := "x", distance := none }] :=
  missing_distance_treated_as_100 [{ text := "x", distance := none }]
    { text := "x", distance := none } rfl

/-- Claim C2: the Context Builder keeps exactly the matches with distance
below 1.5 (so the filtered set is a subset of the input and filtering is
idempotent); on the matches with distances 0.3 and 2.0 the context string is
built from the first match only. -/
theorem relevance_filter_exact_subset_idempotent (docs : List RetrievedDoc) :
    (∀ d ∈ relevantDocs docs, d ∈ docs ∧ distOrDefault d 100 < 3/2)
    ∧ (∀ d ∈ docs, distOrDefault d 100 < 3/2 → d ∈ relevantDocs docs)
    ∧ relevantDocs (relevantDocs docs) = relevantDocs docs
    ∧ build_context_for_query (Except.ok
        [{ text := "A", distance := some (3/10) }, { text := "B", distance := some 2 }])
      = formatPiece 0 { text := "A", distance := some (3/10) } := by
  refine ⟨?_, ?_, ?_, ?_⟩
  · intro d hd
    have hf := List.mem_filter.mp hd
    exact ⟨hf.1, by simpa using hf.2⟩
  · intro d hd hlt
    exact List.mem_filter.mpr ⟨hd, by simpa using hlt⟩
  · simp [relevantDocs, List.filter_filter]
  · have h1 : ((3 : ℚ)/10 < 3/2) := by norm_num
    have h2 : ¬ ((2 : ℚ) < 3/2) := by norm_num
    simp [build_context_for_query, relevantDocs, List.filter_cons, distOrDefault,
      h1, h2, List.enum_cons, joinWith]

/-- Witness for claim C2: membership clauses instantiated on a concrete match
list with one relevant and one irrelevant match. -/
theorem relevance_filter_exact_subset_idempotent_witness :
    ({ text := "A", distance := some (3/10) } : RetrievedDoc)
      ∈ relevantDocs
          [{ text := "A", distance := some (3/10) }, { text := "B", distance := some 2 }] :=
  (relevance_filter_exact_subset_idempotent
      [{ text := "A", distance := some (3/10) }, { text := "B", distance := some 2 }]).2.1
    { text := "A", distance := some (3/10) } (by simp) (by norm_num [distOrDefault])

/-- Claim C1: the web fallback is invoked exactly when the locally built
context string is empty, which happens exactly when retrieval raised, or no
matches came back, or every match has (default-completed) distance at least
1.5; whichever branch is taken, the turn proceeds with the resulting context
string, possibly empty. -/
theorem context_empty_iff_web_fallback
    (retrievalResult : Except String (List RetrievedDoc)) (webSnippets : List String) :
    ((resolveTurnContext retrievalResult webSnippets).webInvoked = true
        ↔ build_context_for_query retrievalResult = "")
    ∧ (build_context_for_query retrievalResult = "" ↔
        (match retrievalResult with
         | Except.error _ => True
         | Except.ok docs => docs = [] ∨ ∀ d ∈ docs, (3 : ℚ)/2 ≤ distOrDefault d 100))
    ∧ (build_context_for_query retrievalResult ≠ "" →
        (resolveTurnContext retrievalResult webSnippets).context
            = build_context_for_query retrievalResult
          ∧ (resolveTurnContext retrievalResult webSnippets).used_fallback_search = false)
    ∧ (build_context_for_query retrievalResult = "" → webSnippets ≠ [] →
        (resolveTurnContext retrievalResult webSnippets).context = joinWith "\n\n" webSnippets
          ∧ (resolveTurnContext retrievalResult webSnippets).used_fallback_search = true)
    ∧ (build_context_for_query retrievalResult = "" → webSnippets = [] →
        (resolveTurnContext retrievalResult webSnippets).context = "") := by
  refine ⟨?_, build_context_empty_iff retrievalResult, ?_, ?_, ?_⟩
  · by_cases hc : build_context_for_query retrievalResult = ""
    · by_cases hw : webSnippets.isEmpty <;>
        simp [resolveTurnContext, hc, hw]
    · simp [resolveTurnContext, hc]
  · intro hc
    simp [resolveTurnContext, hc]
  · intro hc hw
    have hw' : ¬ webSnippets.isEmpty := by simpa [List.isEmpty_iff] using hw
    simp [resolveTurnContext, hc, hw']
  · intro hc hw
    subst hw
    simp [resolveTurnContext, hc]

/-- Witness for claim C1: a single match at distance 2 leaves the local
context empty, the fallback is invoked, and the web snippets become the
context. -/
theorem context_empty_iff_web_fallback_witness :
    (resolveTurnContext (Except.ok [{ text := "doc", distance := some 2 }]) ["s1"]).webInvoked
        = true
    ∧ (resolveTurnContext (Except.ok [{ text := "doc", distance := some 2 }]) ["s1"]).context
        = joinWith "\n\n" ["s1"] := by
  have h := context_empty_iff_web_fallback
    (Except.ok [{ text := "doc", distance := some 2 }]) ["s1"]
  have hempty : build_context_for_query
      (Except.ok [{ text := "doc", distance := some 2 }]) = "" := by
    refine h.2.1.mpr (Or.inr ?_)
    intro d hd
    rw [List.mem_singleton.mp hd]
    norm_num [distOrDefault]
  exact ⟨h.1.mpr hempty, (h.2.2.2.1 hempty (by simp)).1⟩

/-- Claim C3: the composed sequence is the persona system message (emitted
even when the prompt is empty), then the context system message exactly when
the context is non-empty, then the history entries in order with role `"user"`
mapped to a human message and any other role to an assistant message, then the
verbosity directive; the sequence is a flat list. -/
theorem compose_messages_structure (messages : List ChatTurnEntry)
    (system_prompt retrieval_context response_mode : String) :
    (composeMessages messages system_prompt retrieval_context response_mode)[0]?
        = some (ChatMessage.systemMsg system_prompt)
    ∧ (retrieval_context ≠ "" →
        (composeMessages messages system_prompt retrieval_context response_mode)[1]?
          = some (contextMessage retrieval_context))
    ∧ (retrieval_context = "" →
        composeMessages messages system_prompt retrieval_context response_mode
          = ChatMessage.systemMsg system_prompt
              :: (messages.map roleMessage ++ [verbosityDirective response_mode]))
    ∧ (retrieval_context ≠ "" →
        composeMessages messages system_prompt retrieval_context response_mode
          = ChatMessage.systemMsg system_prompt :: contextMessage retrieval_context
              :: (messages.map roleMessage ++ [verbosityDirective response_mode]))
    ∧ (∀ (i : Nat) (e : ChatTurnEntry), messages[i]? = some e →
        (messages.map roleMessage)[i]?
          = some (if e.role = "user" then ChatMessage.humanMsg e.content
                  else ChatMessage.aiMsg e.content))
    ∧ (composeMessages messages system_prompt retrieval_context response_mode).getLast?
        = some (verbosityDirective response_mode) := by
  refine ⟨?_, ?_, ?_, ?_, ?_, ?_⟩
  · by_cases hc : retrieval_context = "" <;> simp [composeMessages, hc]
  · intro hc
    simp [composeMessages, hc]
  · intro hc
    simp [composeMessages, hc]
  · intro hc
    simp [composeMessages, hc]
  · intro i e he
    simp [List.getElem?_map, he, roleMessage]
  · exact List.getLast?_concat _

/-- Witness for claim C3 on a one-entry history with non-empty context. -/
theorem compose_messages_structure_witness :
    (composeMessages [{ role := "user", content := "hi" }] "p" "c" "detailed")[1]?
        = some (contextMessage "c")
    ∧ ([{ role := "user", content := "hi" }].map roleMessage)[0]?
        = some (ChatMessage.humanMsg "hi") := by
  have h := compose_messages_structure [{ role := "user", content := "hi" }] "p" "c" "detailed"
  refine ⟨h.2.1 (by decide), ?_⟩
  have hm := h.2.2.2.2.1 0 { role := "user", content := "hi" } rfl
  simpa using hm

/-- Claim C7 counterexample: the source lowercases the mode before comparing,
so the mode string `"Concise"`, which is not the literal `"concise"`, still
selects the brevity directive. -/
theorem concise_literal_counterexample :
    (composeMessages [] "" "" "Concise").getLast? = some conciseDirective
    ∧ "Concise" ≠ "concise"
    ∧ conciseDirective ≠ detailedDirective := by decide

/-- Claim C7 as amended: the final composed message is the brevity directive
exactly when the mode string lowercases to `"concise"` (a case-insensitive
match, not a literal one), and is the detail directive otherwise; in
particular `"concise"` selects brevity and `"anything_else"` selects detail. -/
theorem verbosity_selected_case_insensitive (messages : List ChatTurnEntry)
    (system_prompt retrieval_context response_mode : String) :
    (composeMessages messages system_prompt retrieval_context response_mode).getLast?
        = some (verbosityDirective response_mode)
    ∧ (verbosityDirective response_mode = conciseDirective ↔ pyLower response_mode = "concise")
    ∧ (pyLower response_mode ≠ "concise" →
        verbosityDirective response_mode = detailedDirective)
    ∧ verbosityDirective "concise" = conciseDirective
    ∧ verbosityDirective "anything_else" = detailedDirective
    ∧ conciseDirective ≠ detailedDirective := by
  refine ⟨List.getLast?_concat _, ?_, ?_, by decide, by decide, by decide⟩
  · unfold verbosityDirective
    by_cases h : pyLower response_mode = "concise" <;> simp [h]
    decide
  · intro h
    simp [verbosityDirective, h]

/-- Witness for claim C7: the all-caps mode also selects the brevity
directive. -/
theorem verbosity_selected_case_insensitive_witness :
    verbosityDirective "CONCISE" = conciseDirective :=
  ((verbosity_selected_case_insensitive [] "" "" "CONCISE").2.1).mpr (by decide)

/-- Claim C5: when the chat-completion invocation raises, the turn still
appends exactly the user entry and a non-empty assistant entry whose content
is the error text; the transcript append is never aborted. -/
theorem model_failure_transcript_contiguity
    (transcript : List ChatTurnEntry) (prompt : String)
    (retrievalResult : Except String (List RetrievedDoc)) (webSnippets : List String)
    (invoke : List ChatMessage → Except (String × String) String)
    (system_prompt response_mode emsg tb : String)
    (hfail : invoke (composeMessages (transcript ++ [{ role := "user", content := prompt }])
        system_prompt (resolveTurnContext retrievalResult webSnippets).context response_mode)
      = Except.error (emsg, tb)) :
    (runTurn transcript prompt retrievalResult webSnippets invoke
        system_prompt response_mode).transcript
      = transcript ++ [{ role := "user", content := prompt },
                       { role := "assistant", content := errorResponse emsg tb }]
    ∧ errorResponse emsg tb ≠ "" := by
  constructor
  · simp [runTurn, get_chat_response, hfail]
  · unfold errorResponse
    apply append_ne_empty_left
    intro hlen
    rw [String.length_append, String.length_append] at hlen
    have h24 : ("Error getting response: " : String).length = 24 := rfl
    omega

/-- Witness for claim C5: a concrete turn whose model invocation raises. -/
theorem model_failure_transcript_contiguity_witness :
    (runTurn [] "q" (Except.error "down") [] (fun _ => Except.error ("boom", "tbtext"))
        "" "detailed").transcript
      = [{ role := "user", content := "q" },
         { role := "assistant", content := errorResponse "boom" "tbtext" }]
    ∧ errorResponse "boom" "tbtext" ≠ "" := by
  have h := model_failure_transcript_contiguity [] "q" (Except.error "down") []
    (fun _ => Except.error ("boom", "tbtext")) "" "detailed" "boom" "tbtext" rfl
  simpa using h

/-- Claim C8 counterexample: a result record carrying neither a snippet nor a
title but a secondary snippet text field yields that text, not the empty
string the claimed two-step fallback chain would produce. -/
theorem snippet_chain_counterexample :
    serpapi_search "key"
        (Except.ok [{ snippet := none, title := none, snippet_text := some "from-tertiary" }]) 3
      = ["from-tertiary"]
    ∧ claimSnippetOf { snippet := none, title := none, snippet_text := some "from-tertiary" }
        = ""
    ∧ ("from-tertiary" : String) ≠ "" := by decide

/-- Claim C8 as amended: each result yields one snippet string, preferring the
snippet field, then the title field, then the secondary snippet text field,
then the empty string (falsy fields are skipped); a missing credential or a
raising request returns the empty sequence. -/
theorem web_search_snippet_chain_and_errors
    (serpapiKey : String) (requestResult : Except String (List SearchResult))
    (num_results : Nat) :
    serpapi_search "" requestResult num_results = []
    ∧ (∀ emsg : String, serpapi_search serpapiKey (Except.error emsg) num_results = [])
    ∧ (∀ results : List SearchResult, serpapiKey ≠ "" →
        serpapi_search serpapiKey (Except.ok results) num_results
          = (results.take num_results).map snippetOf)
    ∧ (∀ (r : SearchResult) (s : String), r.snippet = some s → s ≠ "" → snippetOf r = s)
    ∧ (∀ (r : SearchResult) (t : String), (r.snippet = none ∨ r.snippet = some "") →
        r.title = some t → t ≠ "" → snippetOf r = t)
    ∧ (∀ (r : SearchResult) (u : String), (r.snippet = none ∨ r.snippet = some "") →
        (r.title = none ∨ r.title = some "") → r.snippet_text = some u → u ≠ "" →
        snippetOf r = u)
    ∧ (∀ r : SearchResult, (r.snippet = none ∨ r.snippet = some "") →
        (r.title = none ∨ r.title = some "") →
        (r.snippet_text = none ∨ r.snippet_text = some "") → snippetOf r = "") := by
  refine ⟨rfl, fun emsg => ?_, fun results hk => ?_, ?_, ?_, ?_, ?_⟩
  · by_cases hk : serpapiKey = "" <;> simp [serpapi_search, hk]
  · simp [serpapi_search, hk]
  · intro r s hs hne
    simp [snippetOf, pyOr, hs, hne]
  · intro r t hsn ht hne
    rcases hsn with h | h <;> simp [snippetOf, pyOr, h, ht, hne]
  · intro r u hsn hti hu hne
    rcases hsn with h | h <;> rcases hti with h' | h' <;>
      simp [snippetOf, pyOr, h, h', hu, hne]
  · intro r hsn hti hst
    rcases hsn with h | h <;> rcases hti with h' | h' <;> rcases hst with h'' | h'' <;>
      simp [snippetOf, pyOr, h, h', h'']

/-- Witness for claim C8 on concrete records and a concrete failing request. -/
theorem web_search_snippet_chain_and_errors_witness :
    serpapi_search "k" (Except.error "timeout") 3 = []
    ∧ serpapi_search "k"
        (Except.ok [{ snippet := some "sum", title := some "t", snippet_text := none }]) 3
      = ["sum"]
    ∧ snippetOf { snippet := none, title := some "t", snippet_text := none } = "t" := by
  have h := web_search_snippet_chain_and_errors "k" (Except.error "timeout") 3
  refine ⟨h.2.1 "timeout", ?_, ?_⟩
  · rw [h.2.2.1 [{ snippet := some "sum", title := some "t", snippet_text := none }]
      (by decide)]
    rw [show ([{ snippet := some "sum", title := some "t", snippet_text := none }]
        : List SearchResult).take 3
      = [{ snippet := some "sum", title := some "t", snippet_text := none }] from rfl]
    rw [List.map_cons, List.map_nil,
      h.2.2.2.1 { snippet := some "sum", title := some "t", snippet_text := none } "sum"
        rfl (by decide)]
  · exact h.2.2.2.2.1 { snippet := none, title := some "t", snippet_text := none } "t"
      (Or.inl rfl) rfl (by decide)

theorem chunkLoop_getElem_eq (text : List Char) (chunk_size overlap : Nat) :
    ∀ (fuel start i : Nat),
      text.length ≤ start + fuel * (chunk_size - overlap) →
      (chunkLoop text chunk_size overlap start fuel)[i]? =
        if start + i * (chunk_size - overlap) < text.length
        then some ((text.drop (start + i * (chunk_size - overlap))).take chunk_size)
        else none := by
  intro fuel
  induction fuel with
  | zero =>
    intro start i hfuel
    rw [show chunkLoop text chunk_size overlap start 0 = [] from rfl,
      if_neg (by omega)]
    simp
  | succ fuel ih =>
    intro start i hfuel
    rw [show chunkLoop text chunk_size overlap start (fuel + 1)
        = if start < text.length then
            ((text.drop start).take chunk_size)
              :: chunkLoop text chunk_size overlap (start + (chunk_size - overlap)) fuel
          else [] from rfl]
    by_cases hs : start < text.length
    · rw [if_pos hs]
      cases i with
      | zero =>
        rw [List.getElem?_cons_zero, if_pos (by omega)]
        simp
      | succ i =>
        rw [List.getElem?_cons_succ]
        have hb : text.length
            ≤ start + (chunk_size - overlap) + fuel * (chunk_size - overlap) := by
          rw [Nat.succ_mul] at hfuel
          omega
        rw [ih (start + (chunk_size - overlap)) i hb]
        have harg : start + (chunk_size - overlap) + i * (chunk_size - overlap)
            = start + (i + 1) * (chunk_size - overlap) := by
          rw [Nat.succ_mul]
          omega
        rw [harg]
    · rw [if_neg hs, if_neg (by omega)]
      simp

theorem chunk_text_getElem_eq (text : List Char) (chunk_size overlap : Nat)
    (hos : overlap < chunk_size) (i : Nat) :
    (chunk_text text chunk_size overlap)[i]? =
      if i * (chunk_size - overlap) < text.length
      then some ((text.drop (i * (chunk_size - overlap))).take chunk_size)
      else none := by
  have h1 : (text.length + 1) * 1 ≤ (text.length + 1) * (chunk_size - overlap) :=
    Nat.mul_le_mul (Nat.le_refl _) (by omega)
  have hb : text.length ≤ 0 + (text.length + 1) * (chunk_size - overlap) := by omega
  have h := chunkLoop_getElem_eq text chunk_size overlap (text.length + 1) 0 i hb
  simpa using h

/-- Claim C4 counterexample: with a 14-character text, size 7 and overlap 5
(so 0 < overlap < size), windows start at 0, 2, ..., 12; chunks 4 and 5 are
consecutive, chunk 5 is not the last chunk (chunk 6 exists), yet window 4 is
truncated at the text end and the two chunks share only 4 characters, not the
claimed overlap of 5. -/
theorem chunk_overlap_counterexample :
    ((0 : Nat) < 5 ∧ (5 : Nat) < 7)
    ∧ (chunk_text "abcdefghijklmn".data 7 5)[4]? = some "ijklmn".data
    ∧ (chunk_text "abcdefghijklmn".data 7 5)[5]? = some "klmn".data
    ∧ (chunk_text "abcdefghijklmn".data 7 5)[6]? = some "mn".data
    ∧ (chunk_text "abcdefghijklmn".data 7 5)[7]? = none
    ∧ min (4 * (7 - 5) + 7) ("abcdefghijklmn".data.length) - 5 * (7 - 5) = 4
    ∧ (4 : Nat) ≠ 5 := by decide

/-- Claim C4 as amended: for 0 < overlap < size, chunk i is exactly
`text[i*(size-overlap) : min(i*(size-overlap)+size, L)]` while the start is
below `L`, the windows cover `[0, L)`, and a pair of consecutive chunks whose
earlier chunk is full-length (not truncated by the text end) overlaps by
exactly `overlap` characters — pairs whose earlier chunk is truncated (which
can include pairs before the final one when `2*overlap > size`) may share
fewer; `chunk_text "abcdefghij" 4 1` is `["abcd","defg","ghij","j"]`. -/
theorem chunk_text_windows_coverage_overlap (text : List Char) (chunk_size overlap : Nat)
    (ho : 0 < overlap) (hos : overlap < chunk_size) :
    (∀ i : Nat, (chunk_text text chunk_size overlap)[i]? =
        if i * (chunk_size - overlap) < text.length
        then some ((text.drop (i * (chunk_size - overlap))).take chunk_size)
        else none)
    ∧ (∀ p : Nat, p < text.length → ∃ i : Nat,
        i * (chunk_size - overlap) < text.length
        ∧ i * (chunk_size - overlap) ≤ p
        ∧ p < min (i * (chunk_size - overlap) + chunk_size) text.length)
    ∧ (∀ i : Nat, (i + 1) * (chunk_size - overlap) < text.length →
        i * (chunk_size - overlap) + chunk_size ≤ text.length →
        min (i * (chunk_size - overlap) + chunk_size) text.length
          - (i + 1) * (chunk_size - overlap) = overlap)
    ∧ chunk_text "abcdefghij".data 4 1
        = ["abcd".data, "defg".data, "ghij".data, "j".data] := by
  refine ⟨chunk_text_getElem_eq text chunk_size overlap hos, ?_, ?_, by decide⟩
  · intro p hp
    have hst : 0 < chunk_size - overlap := by omega
    have hdm := Nat.div_add_mod p (chunk_size - overlap)
    rw [Nat.mul_comm] at hdm
    have hmod := Nat.mod_lt p hst
    exact ⟨p / (chunk_size - overlap), by omega, by omega, by omega⟩
  · intro i h1 h2
    rw [Nat.succ_mul] at h1 ⊢
    omega

/-- Witness for claim C4: the theorem applied to the literal Scenario A input,
yielding the documented chunk list and the window at index 3. -/
theorem chunk_text_windows_coverage_overlap_witness :
    chunk_text "abcdefghij".data 4 1 = ["abcd".data, "defg".data, "ghij".data, "j".data]
    ∧ (chunk_text "abcdefghij".data 4 1)[3]?
        = some (("abcdefghij".data.drop (3 * (4 - 1))).take 4) := by
  have h := chunk_text_windows_coverage_overlap "abcdefghij".data 4 1
    (by decide) (by decide)
  refine ⟨h.2.2.2, ?_⟩
  rw [h.1 3, if_pos (by decide)]

/-- Claim C9 counterexample: the Chunker itself turns the whitespace-only
text consisting of one space into one chunk, not zero chunks. -/
theorem whitespace_chunks_counterexample :
    chunk_text " ".data 500 50 = [[' ']]
    ∧ (' ').isWhitespace = true
    ∧ chunk_text " ".data 500 50 ≠ [] := by decide

/-- Claim C9 as amended: empty input produces zero chunks from the Chunker
itself; whitespace-only input produces chunks from the Chunker, but the
ingestion caller strips each file's text and skips it when the strip is empty,
so whitespace-only input contributes zero indexed chunks. -/
theorem empty_input_zero_chunks_whitespace_skipped :
    (∀ chunk_size overlap : Nat, chunk_text [] chunk_size overlap = [])
    ∧ (∀ text : List Char, (∀ c ∈ text, c.isWhitespace) →
        pyStrip text = [] ∧ fileChunks text = []) := by
  constructor
  · intro chunk_size overlap
    rfl
  · intro text h
    have h1 : text.dropWhile Char.isWhitespace = [] :=
      List.dropWhile_eq_nil_iff.mpr (fun c hc => h c hc)
    have hstrip : pyStrip text = [] := by
      unfold pyStrip
      rw [h1]
      rfl
    exact ⟨hstrip, by simp [fileChunks, hstrip]⟩

/-- Witness for claim C9 at the one-space text. -/
theorem empty_input_zero_chunks_whitespace_skipped_witness :
    pyStrip " ".data = [] ∧ fileChunks " ".data = [] :=
  empty_input_zero_chunks_whitespace_skipped.2 " ".data (by decide)

end RagApp
